import Mathlib

/-!
Verification of the Cynchrony analytics dashboard (src/main.py).

The dashboard is a single Python script: a data fetcher (`fetch_data`), two pure
display helpers (`format_number`, `get_success_rate_color`) and one render
function (`main`) that fetches five analytics endpoints, renders panels for
them, and either sleeps and reruns (auto-refresh) or ends the script run.

The embedding below mirrors the script as pure Lean functions.  Side effects
(widgets rendered, messages shown, charts drawn, HTTP requests issued) are
modelled as an explicit trace of events; the end of a script run is an explicit
action (halt / rerun / sleep-then-rerun).  Python numbers are modelled exactly:
an arbitrary-precision integer is an `Int`, and a float is the nearest binary64
value of its exact rational source, computed by `PyRat.toDouble` below, so the
decimal renderings produced by Python's `:.1f` format are reproduced exactly
(IEEE-754 round-to-nearest, ties-to-even, followed by decimal rounding to one
place, ties-to-even).  Float overflow (magnitudes beyond about 1.8e308) is not
modelled; every value in this development is far inside the normal range.
Emoji glyphs appearing inside the source's string literals are elided from the
modelled strings; the surrounding text is kept.
-/

namespace Cynchrony

/-- Number of recursive halving steps needed to reach `0`, with explicit fuel so
that the definition is structural (and hence evaluates inside the kernel). -/
def natBits : Nat → Nat → Nat
  | 0, _ => 0
  | fuel + 1, n => if n = 0 then 0 else natBits fuel (n / 2) + 1

/-- Bit length of a natural number: `bits 0 = 0` and `2 ^ (bits n - 1) ≤ n < 2 ^ bits n`
for `n > 0`. -/
def bits (n : Nat) : Nat := natBits (n + 1) n

/-- Exact fractions with a positive denominator.  Used to model Python numbers:
no operation below ever needs gcd normalisation, so all arithmetic is plain
integer arithmetic and evaluates inside the kernel. -/
structure PyRat where
  num : ℤ
  den : ℤ
  den_pos : 0 < den

instance : LE PyRat := ⟨fun a b => a.num * b.den ≤ b.num * a.den⟩

instance : LT PyRat := ⟨fun a b => a.num * b.den < b.num * a.den⟩

instance (a b : PyRat) : Decidable (a ≤ b) := Int.decLe _ _

instance (a b : PyRat) : Decidable (a < b) := Int.decLt _ _

instance (n : ℕ) : OfNat PyRat n := ⟨⟨(n : ℤ), 1, one_pos⟩⟩

/-- The integer `n` as an exact fraction. -/
def PyRat.ofInt (n : ℤ) : PyRat := ⟨n, 1, one_pos⟩

/-- Multiply an exact fraction by `2 ^ k`. -/
def PyRat.scaleUp (a : PyRat) (k : ℕ) : PyRat :=
  ⟨a.num * 2 ^ k, a.den, a.den_pos⟩

/-- Divide an exact fraction by `2 ^ k`. -/
def PyRat.scaleDown (a : PyRat) (k : ℕ) : PyRat :=
  ⟨a.num, a.den * 2 ^ k, mul_pos a.den_pos (pow_pos two_pos k)⟩

/-- Negate an exact fraction. -/
def PyRat.neg (a : PyRat) : PyRat := ⟨-a.num, a.den, a.den_pos⟩

/-- Round an exact fraction to the nearest integer, ties to even (the rounding
used both by IEEE-754 binary64 arithmetic and by Python's string formatting). -/
def PyRat.roundHalfEven (a : PyRat) : ℤ :=
  let f := a.num.fdiv a.den
  let twice := 2 * (a.num - f * a.den)
  if twice < a.den then f
  else if a.den < twice then f + 1
  else if f % 2 = 0 then f else f + 1

/-- Does `2 ^ e ≤ a` hold?  (Only used on positive `a`.) -/
def PyRat.pow2Le (e : ℤ) (a : PyRat) : Bool :=
  if 0 ≤ e then decide ((2 : ℤ) ^ e.toNat * a.den ≤ a.num)
  else decide (a.den ≤ a.num * 2 ^ (-e).toNat)

/-- `⌊log₂ a⌋` for a positive exact fraction `a`. -/
def PyRat.ilog2 (a : PyRat) : ℤ :=
  let e : ℤ := (bits a.num.toNat : ℤ) - (bits a.den.toNat : ℤ)
  if PyRat.pow2Le e a then e else e - 1

/-- The binary64 (Python float) value nearest to a positive exact fraction:
scale into `[2 ^ 52, 2 ^ 53)`, round the mantissa to an integer (ties to even)
and scale back. -/
def PyRat.toDoublePos (a : PyRat) : PyRat :=
  let k : ℤ := a.ilog2
  let scaled : PyRat := if 0 ≤ 52 - k then a.scaleUp (52 - k).toNat else a.scaleDown (k - 52).toNat
  let m : ℤ := scaled.roundHalfEven
  if 0 ≤ k - 52 then ⟨m * 2 ^ (k - 52).toNat, 1, one_pos⟩
  else ⟨m, 2 ^ (52 - k).toNat, pow_pos two_pos _⟩

/-- The binary64 (Python float) value nearest to an exact fraction.  Overflow
and the subnormal range are not modelled (irrelevant to every value in this
development). -/
def PyRat.toDouble (a : PyRat) : PyRat :=
  if a.num = 0 then PyRat.ofInt 0
  else if a.num < 0 then (PyRat.toDoublePos a.neg).neg
  else PyRat.toDoublePos a

/-- Python's `"%.1f"`-style rendering of a (binary64) value held as an exact
fraction: round to tenths, ties to even, and print with one decimal digit.
(The `-0.0` corner of CPython is not reproduced; no value in this development
reaches it.) -/
def PyRat.fmt1f (x : PyRat) : String :=
  let t : ℤ := PyRat.roundHalfEven ⟨10 * x.num, x.den, x.den_pos⟩
  if t < 0 then
    "-" ++ toString ((-t).toNat / 10) ++ "." ++ toString ((-t).toNat % 10)
  else
    toString (t.toNat / 10) ++ "." ++ toString (t.toNat % 10)

/-- `f"{n/d:.1f}"` for integers `n` and positive `d`: Python's true division of
two ints is the correctly rounded binary64 quotient, then formatted with one
decimal place. -/
def pyDiv1f (n : ℤ) (d : ℤ) (hd : 0 < d) : String :=
  PyRat.fmt1f (PyRat.toDouble ⟨n, d, hd⟩)

/-- `format_number` from src/main.py (lines 93-99): format large numbers with
K / M suffixes.  The dashboard applies it to the integer counters of the
summary payload; the embedding therefore takes an `Int`. -/
def format_number (num : ℤ) : String :=
  if 1000000 ≤ num then pyDiv1f num 1000000 (by decide) ++ "M"
  else if 1000 ≤ num then pyDiv1f num 1000 (by decide) ++ "K"
  else toString num

/-- `get_success_rate_color` from src/main.py (lines 102-108): pick a CSS class
from the success rate. -/
def get_success_rate_color (rate : PyRat) : String :=
  if (95 : PyRat) ≤ rate then "success-rate-high"
  else if (80 : PyRat) ≤ rate then "success-rate-medium"
  else "success-rate-low"

/-- `f"{rate:.1f}%"` — the rendering of the success-rate metric in `main`. -/
def fmtPct (rate : PyRat) : String := PyRat.fmt1f rate.toDouble ++ "%"

/-! ### JSON values

Payloads of the analytics API, as produced by Python's JSON parser: an integer
literal parses to a Python `int`, any other numeric literal to a float. -/

/-- A parsed JSON value. -/
inductive JVal where
  | int (n : ℤ)
  | float (x : PyRat)
  | str (s : String)
  | obj (fields : List (String × JVal))
  | arr (elems : List JVal)

/-- First binding of a key in an association list (JSON objects parse to Python
dicts, whose keys are unique, so first-vs-last never matters). -/
def jlookup : List (String × JVal) → String → Option JVal
  | [], _ => none
  | (k, v) :: rest, key => if k = key then some v else jlookup rest key

/-- Python `d.get(key, default)` on an object value.  (The source would raise
on a non-dict receiver; the backend contract keeps that unreachable and no
claim exercises it.) -/
def jgetD (v : JVal) (key : String) (d : JVal) : JVal :=
  match v with
  | .obj fields => (jlookup fields key).getD d
  | _ => d

/-- Python truthiness of a parsed JSON value. -/
def JVal.truthy : JVal → Bool
  | .int n => n ≠ 0
  | .float x => x.num ≠ 0
  | .str s => s ≠ ""
  | .obj fields => !fields.isEmpty
  | .arr elems => !elems.isEmpty

/-- The items of a JSON array (the source only indexes and slices arrays;
slicing a non-list would raise, which the backend contract keeps unreachable). -/
def JVal.elems : JVal → List JVal
  | .arr es => es
  | _ => []

/-- The numeric value of a JSON number as an exact fraction (`0` as the
placeholder for non-numbers, which the trusted backend schema never sends in a
numeric field). -/
def JVal.numVal : JVal → PyRat
  | .int n => PyRat.ofInt n
  | .float x => x
  | _ => PyRat.ofInt 0

/-- Field `key` of an object, as a Python int, defaulting to `d` — models
`summary.get(key, d)` for the integer counters of the summary payload. -/
def jgetInt (v : JVal) (key : String) (d : ℤ) : ℤ :=
  match jgetD v key (.int d) with
  | .int n => n
  | _ => d

/-- Field `key` of an object as a number, defaulting to `d` — models
`summary.get("success_rate", 100)`. -/
def jgetNum (v : JVal) (key : String) (d : PyRat) : PyRat :=
  match v with
  | .obj fields =>
    match jlookup fields key with
    | some w => w.numVal
    | none => d
  | _ => d

/-- The `"count"` field of an endpoint-stat row, as an integer. -/
def jcount (v : JVal) : ℤ := jgetInt v "count" 0

/-- The `"date"` field of a daily-stat row, as a string. -/
def jdate (v : JVal) : String :=
  match jgetD v "date" (.str "") with
  | .str s => s
  | _ => ""

/-! ### Stable sorting

`pandas.DataFrame.sort_values` sorts rows by a key column.  The model uses a
structural insertion sort (kernel-evaluable); tie order is irrelevant to every
claim. -/

/-- Insert `a` into `l`, before the first element `b` with `le a b`. -/
def insertLe (le : α → α → Bool) (a : α) : List α → List α
  | [] => [a]
  | b :: bs => if le a b then a :: b :: bs else b :: insertLe le a bs

/-- Insertion sort by `le` (stable: earlier elements stay before later equal
ones). -/
def sortLe (le : α → α → Bool) : List α → List α
  | [] => []
  | a :: as => insertLe le a (sortLe le as)

/-! ### HTTP outcomes and the event trace -/

/-- The body of an HTTP response, from the point of view of `response.json()`:
either it parses, or `.json()` raises with some message. -/
inductive JsonBody where
  | parsed (v : JVal)
  | malformed (errMsg : String)

/-- What a `requests.get` call can come back with. -/
inductive HttpOutcome where
  | response (status : ℕ) (body : JsonBody)
  | connectionError
  | timeout (msg : String)
  | exception (msg : String)

/-- The four message stylings Streamlit offers (`st.error`, `st.warning`,
`st.info`, `st.success`). -/
inductive MsgKind where
  | error
  | warning
  | info
  | success
deriving DecidableEq

/-- One observable act of a script run: a widget or text rendered, a message
shown, an HTTP request issued, a chart drawn or a table displayed. -/
inductive Event where
  | markdown (text : String)
  | sidebarImage
  | healthCheck
  | fetchCall (endpoint : String)
  | msg (kind : MsgKind) (text : String)
  | metric (label : String) (value : String)
  | categoryBar (rows : List (String × JVal))
  | endpointsBar (rows : List JVal) (colorKey : String)
  | hourlyLines (rows : List JVal)
  | errorsTable (rows : List JVal)
  | dailyBars (rows : List JVal)

/-- Result of one `fetch_data` call: the returned value (`none` models Python
`None`) and the events it emitted (the HTTP request and any diagnostics). -/
structure FetchOut where
  result : Option JVal
  events : List Event

/-- `fetch_data` from src/main.py (lines 76-90): GET
`{BACKEND_URL}/analytics/{endpoint}` with a 10-second timeout; on HTTP 200
return the payload under the `"data"` key (`{}` when absent); on any non-200
status, connection failure, malformed body, timeout or other exception, show
an `st.error` diagnostic and return `None`.  A read timeout raises
`requests.exceptions.Timeout`, caught by the generic `except Exception`
branch; the message text is the exception's `str`. -/
def fetch_data (baseUrl endpoint : String) (outcome : HttpOutcome) : FetchOut :=
  match outcome with
  | .response status body =>
    if status = 200 then
      match body with
      | .parsed (.obj fields) =>
        { result := some ((jlookup fields "data").getD (.obj []))
          events := [.fetchCall endpoint] }
      | .parsed _ =>
        -- `.get` on a non-dict raises AttributeError, caught by `except Exception`
        { result := none
          events := [.fetchCall endpoint,
            .msg .error ("Error fetching " ++ endpoint ++ ": attribute error")] }
      | .malformed m =>
        { result := none
          events := [.fetchCall endpoint,
            .msg .error ("Error fetching " ++ endpoint ++ ": " ++ m)] }
    else
      { result := none
        events := [.fetchCall endpoint,
          .msg .error ("Error fetching " ++ endpoint ++ ": " ++ toString status)] }
  | .connectionError =>
    { result := none
      events := [.fetchCall endpoint,
        .msg .error ("Cannot connect to backend at " ++ baseUrl ++
          ". Make sure the server is running.")] }
  | .timeout m =>
    { result := none
      events := [.fetchCall endpoint,
        .msg .error ("Error fetching " ++ endpoint ++ ": " ++ m)] }
  | .exception m =>
    { result := none
      events := [.fetchCall endpoint,
        .msg .error ("Error fetching " ++ endpoint ++ ": " ++ m)] }

/-! ### The render/refresh loop (`main` in src/main.py) -/

/-- Startup configuration, read once from `st.secrets`: the backend base URL
and the default refresh interval. -/
structure Config where
  backendUrl : String
  refreshInterval : ℕ

/-- The external state one script run sees: the widget states in the sidebar,
and the outcome of every HTTP request the run would issue. -/
structure Inputs where
  /-- State of the `Auto-refresh` checkbox (initially true). -/
  autoRefresh : Bool
  /-- The operator's position on the refresh-interval slider, if touched. -/
  intervalChoice : Option ℕ
  /-- Whether the `Refresh Now` button was clicked on this run. -/
  refreshClicked : Bool
  /-- Outcome of the sidebar's health probe (`GET {BACKEND_URL}/health`). -/
  healthOutcome : HttpOutcome
  /-- Outcome of `GET {BACKEND_URL}/analytics/{endpoint}` per endpoint name. -/
  outcomes : String → HttpOutcome

/-- Value yielded by `st.slider(label, lo, hi, default)`: the default when
untouched, otherwise the operator's choice, which the widget constrains to
`[lo, hi]`.  (Streamlit refuses to start when the default itself is outside
the bounds; that configuration error is not modelled.) -/
def sliderValue (lo hi default : ℕ) (choice : Option ℕ) : ℕ :=
  match choice with
  | none => default
  | some c => max lo (min hi c)

/-- How a script run ends: fall off the end (the page waits for an external
trigger), rerun at once (`st.rerun()` from the manual button), or block for
the refresh interval and then rerun. -/
inductive EndAction where
  | halt
  | manualRerun
  | sleepThenRerun (seconds : ℕ)

/-- Sidebar health-probe display: `st.success` on HTTP 200, `st.error` on any
other status, `st.error` on any exception (bare `except`). -/
def healthMsg : HttpOutcome → Event
  | .response status _ => if status = 200 then .msg .success "Backend Online"
      else .msg .error "Backend Error"
  | _ => .msg .error "Backend Offline"

/-- The sidebar (src/main.py lines 116-141), up to but not including the
`Refresh Now` button click check. -/
def sidebar (cfg : Config) (inp : Inputs) : List Event :=
  [ .sidebarImage
  , .markdown "---"
  , .markdown "### Settings"
  , .markdown "---"
  , .markdown "### Quick Links"
  , .markdown ("- [API Docs](" ++ cfg.backendUrl ++ "/docs)")
  , .markdown ("- [Health Check](" ++ cfg.backendUrl ++ "/health)")
  , .markdown "---"
  , .markdown "### Backend Status"
  , .healthCheck
  , healthMsg inp.healthOutcome ]

/-- Python `str.title()` (ASCII): a letter after a non-letter is uppercased,
a letter after a letter is lowercased. -/
def titleGo : List Char → Bool → List Char
  | [], _ => []
  | c :: cs, prevAlpha =>
    (if c.isAlpha then (if prevAlpha then c.toLower else c.toUpper) else c)
      :: titleGo cs c.isAlpha

/-- `k.replace("_", " ").title()` — the category label shown in the breakdown
chart. -/
def categoryLabel (k : String) : String :=
  String.mk (titleGo (k.replace "_" " ").toList false)

/-- Numeric `le` on rows keyed by a projection, as the sort predicate. -/
def leByNum (key : JVal → PyRat) (a b : JVal) : Bool := decide (key a ≤ key b)

/-- The overview metrics row (src/main.py lines 151-192). -/
def overviewSection (summary : JVal) : List Event :=
  [ .markdown "### Overview"
  , .metric "Total API Calls" (format_number (jgetInt summary "total_api_calls" 0))
  , .metric "Success Rate" (fmtPct (jgetNum summary "success_rate" 100))
  , .metric "Total Errors" (format_number (jgetInt summary "total_errors" 0))
  , .metric "AI Chat Calls" (format_number (jgetInt summary "ai_chat_calls" 0))
  , .metric "AI Generation" (format_number (jgetInt summary "ai_generation_calls" 0))
  , .markdown "---" ]

/-- The processing-operations metrics row (src/main.py lines 194-235). -/
def processingSection (summary : JVal) : List Event :=
  [ .markdown "### Processing Operations"
  , .metric "PDF Processing" (format_number (jgetInt summary "pdf_processing" 0))
  , .metric "Image Processing" (format_number (jgetInt summary "image_processing" 0))
  , .metric "Video Processing" (format_number (jgetInt summary "video_processing" 0))
  , .metric "Audio Processing" (format_number (jgetInt summary "audio_processing" 0))
  , .metric "Code Executions" (format_number (jgetInt summary "code_executions" 0))
  , .metric "File Uploads" (format_number (jgetInt summary "file_uploads" 0))
  , .markdown "---" ]

/-- The category-breakdown panel (src/main.py lines 240-267): a horizontal bar
chart of `summary["category_breakdown"]` sorted ascending by count, or an
informational placeholder when the mapping is absent or empty. -/
def categorySection (summary : JVal) : List Event :=
  .markdown "### Category Breakdown" ::
  (let categoryData := jgetD summary "category_breakdown" (.obj [])
   if categoryData.truthy then
     match categoryData with
     | .obj fields =>
       [.categoryBar (sortLe (fun a b => decide (a.2.numVal ≤ b.2.numVal))
          (fields.map (fun p => (categoryLabel p.1, p.2))))]
     | _ => []  -- a truthy non-dict would raise in the source; unreachable under the contract
   else [.msg .info "No category data available yet."])

/-- The top-endpoints panel (src/main.py lines 269-291): fetch `endpoints`; on
a truthy result chart the FIRST ten rows (`endpoints[:10]`), colored by
success rate; otherwise an informational placeholder. -/
def endpointsSection (cfg : Config) (inp : Inputs) : List Event :=
  .markdown "### Top Endpoints" ::
  (let f := fetch_data cfg.backendUrl "endpoints" (inp.outcomes "endpoints")
   f.events ++
   match f.result with
   | some v =>
     if v.truthy then
       let rows := v.elems.take 10
       if rows.isEmpty then [] else [.endpointsBar rows "success_rate"]
     else [.msg .info "No endpoint data available yet."]
   | none => [.msg .info "No endpoint data available yet."])

/-- The hourly-activity panel (src/main.py lines 295-338): fetch `hourly`; on
a truthy result draw the three overlaid traces; otherwise an informational
placeholder. -/
def hourlySection (cfg : Config) (inp : Inputs) : List Event :=
  .markdown "### Hourly Activity (Last 24 Hours)" ::
  (let f := fetch_data cfg.backendUrl "hourly" (inp.outcomes "hourly")
   f.events ++
   match f.result with
   | some v =>
     if v.truthy then
       (if v.elems.isEmpty then [] else [.hourlyLines v.elems])
     else [.msg .info "No hourly data available yet."]
   | none => [.msg .info "No hourly data available yet."])

/-- The business-metrics row (src/main.py lines 342-375). -/
def businessSection (summary : JVal) : List Event :=
  [ .markdown "### Business Metrics"
  , .metric "Auth Events" (format_number (jgetInt summary "authentication_events" 0))
  , .metric "Payment Events" (format_number (jgetInt summary "payment_events" 0))
  , .metric "Assessments" (format_number (jgetInt summary "assessment_events" 0))
  , .metric "Interviews" (format_number (jgetInt summary "interview_events" 0))
  , .metric "Resume Ops" (format_number (jgetInt summary "resume_operations" 0))
  , .markdown "---" ]

/-- The recent-errors panel (src/main.py lines 379-400): fetch `errors`; on a
truthy result display the first twenty rows as a table; on an absent or empty
result show the congratulatory `st.success` empty state. -/
def errorsSection (cfg : Config) (inp : Inputs) : List Event :=
  .markdown "### Recent Errors" ::
  (let f := fetch_data cfg.backendUrl "errors" (inp.outcomes "errors")
   f.events ++
   match f.result with
   | some v =>
     if v.truthy then
       let rows := v.elems.take 20
       if rows.isEmpty then [.msg .success "No errors recorded!"]
       else [.errorsTable rows]
     else [.msg .success "No errors recorded!"]
   | none => [.msg .success "No errors recorded!"])

/-- The daily-statistics panel (src/main.py lines 404-438): fetch `daily`; on
a truthy result draw the stacked bars sorted by date; otherwise an
informational placeholder. -/
def dailySection (cfg : Config) (inp : Inputs) : List Event :=
  .markdown "### Daily Statistics (Last 30 Days)" ::
  (let f := fetch_data cfg.backendUrl "daily" (inp.outcomes "daily")
   f.events ++
   match f.result with
   | some v =>
     if v.truthy then
       (if v.elems.isEmpty then []
        else [.dailyBars (sortLe (fun a b => decide (jdate a ≤ jdate b)) v.elems)])
     else [.msg .info "No daily data available yet."]
   | none => [.msg .info "No daily data available yet."])

/-- The footer (src/main.py lines 441-451).  The live timestamp interpolated
into the text is real time and is elided from the model. -/
def footerSection (cfg : Config) : List Event :=
  [ .markdown "---"
  , .markdown ("Cynchrony Analytics Dashboard | Connected to: " ++ cfg.backendUrl) ]

/-- `main` from src/main.py (lines 111-456): one script run.  Returns the
event trace of the run and the action that ends it.  The `Refresh Now` button
aborts the run with an immediate rerun; an absent summary short-circuits to a
warning; otherwise every panel renders and, with auto-refresh on, the run ends
by sleeping for the slider interval and rerunning. -/
def main (cfg : Config) (inp : Inputs) : List Event × EndAction :=
  let headerEvents := .markdown "Cynchrony Analytics Dashboard" :: sidebar cfg inp
  if inp.refreshClicked then
    (headerEvents, .manualRerun)
  else
    let fs := fetch_data cfg.backendUrl "summary" (inp.outcomes "summary")
    match fs.result with
    | none =>
      (headerEvents ++ fs.events ++
        [ .msg .warning "Unable to fetch analytics data. Please check the backend connection."
        , .msg .info ("Trying to connect to: " ++ cfg.backendUrl) ], .halt)
    | some summary =>
      let events := headerEvents ++ fs.events
        ++ overviewSection summary
        ++ processingSection summary
        ++ categorySection summary
        ++ endpointsSection cfg inp
        ++ [.markdown "---"]
        ++ hourlySection cfg inp
        ++ [.markdown "---"]
        ++ businessSection summary
        ++ [.markdown "---"]
        ++ errorsSection cfg inp
        ++ [.markdown "---"]
        ++ dailySection cfg inp
        ++ footerSection cfg
      if inp.autoRefresh then
        (events, .sleepThenRerun (sliderValue 10 120 cfg.refreshInterval inp.intervalChoice))
      else
        (events, .halt)

/-! ### The hosting loop

Streamlit reruns the script whenever the previous run asked for it.  `host`
plays at most `n` runs with a fixed configuration and external state, and
records each completed run and each refresh sleep. -/

/-- One entry of the host trace. -/
inductive HostEvent where
  | ranScript (events : List Event)
  | slept (seconds : ℕ)

/-- Play at most `n` script runs. -/
def host (cfg : Config) (inp : Inputs) : ℕ → List HostEvent
  | 0 => []
  | n + 1 =>
    let r := main cfg inp
    match r.2 with
    | .sleepThenRerun s => .ranScript r.1 :: .slept s :: host cfg inp n
    | .manualRerun => .ranScript r.1 :: host cfg inp n
    | .halt => [.ranScript r.1]

/-! ### Observations on traces -/

/-- The endpoints fetched during a trace, in order. -/
def fetchTrace (events : List Event) : List String :=
  events.filterMap fun e =>
    match e with
    | .fetchCall endpoint => some endpoint
    | _ => none

/-- Is this event a message of the given styling? -/
def isMsgKind (k : MsgKind) : Event → Bool
  | .msg k2 _ => k2 = k
  | _ => false

/-- Is this event a rendered metric? -/
def isMetric : Event → Bool
  | .metric _ _ => true
  | _ => false

/-- Is this event a chart or a data table? -/
def isChartOrTable : Event → Bool
  | .categoryBar _ => true
  | .endpointsBar _ _ => true
  | .hourlyLines _ => true
  | .errorsTable _ => true
  | .dailyBars _ => true
  | _ => false

/-- The result of the summary fetch a run would perform. -/
def summaryResult (cfg : Config) (inp : Inputs) : Option JVal :=
  (fetch_data cfg.backendUrl "summary" (inp.outcomes "summary")).result

/-- The result of the fetch for a named endpoint. -/
def endpointResult (cfg : Config) (inp : Inputs) (endpoint : String) : Option JVal :=
  (fetch_data cfg.backendUrl endpoint (inp.outcomes endpoint)).result

/-- Does this outcome lie on one of `fetch_data`'s failure paths?  (HTTP
status other than 200, connection refused, body that fails to parse, request
timeout, or any other exception.) -/
def failingOutcome : HttpOutcome → Bool
  | .response status body =>
    (status != 200) ||
      (match body with
       | .malformed _ => true
       | _ => false)
  | .connectionError => true
  | .timeout _ => true
  | .exception _ => true

/-! ### Concrete data used by witnesses and counterexamples -/

/-- A demo configuration. -/
def cfgDemo : Config := ⟨"http://localhost:8000", 30⟩

/-- External state in which every request fails at the connection level. -/
def inpAllDown : Inputs :=
  ⟨true, none, false, .connectionError, fun _ => .connectionError⟩

/-- External state in which every request succeeds with an empty payload. -/
def inpOk : Inputs :=
  ⟨true, none, false, .response 200 (.parsed (.obj [])),
    fun _ => .response 200 (.parsed (.obj [("data", .obj [])]))⟩

/-- Is this fetch result an absent value or an empty list?  (The condition of
claim C3.) -/
def absentOrEmpty (r : Option JVal) : Prop :=
  r = none ∨ r = some (.arr [])

/-- The fifteen integer counters of the summary payload and the labels their
metrics carry, as read off src/main.py lines 156-233 and 347-375. -/
def counterMetrics : List (String × String) :=
  [ ("total_api_calls", "Total API Calls")
  , ("total_errors", "Total Errors")
  , ("ai_chat_calls", "AI Chat Calls")
  , ("ai_generation_calls", "AI Generation")
  , ("pdf_processing", "PDF Processing")
  , ("image_processing", "Image Processing")
  , ("video_processing", "Video Processing")
  , ("audio_processing", "Audio Processing")
  , ("code_executions", "Code Executions")
  , ("file_uploads", "File Uploads")
  , ("authentication_events", "Auth Events")
  , ("payment_events", "Payment Events")
  , ("assessment_events", "Assessments")
  , ("interview_events", "Interviews")
  , ("resume_operations", "Resume Ops") ]

/-- The three rows of summary-bound metrics, concatenated. -/
def summaryMetricSections (summary : JVal) : List Event :=
  overviewSection summary ++ processingSection summary ++ businessSection summary

/-- The selection claim C7's words describe: the top ten entries ranked by
call count, i.e. the first ten of a count-descending sort.  (Written from the
claim's words, to be compared with what the code draws, which is
`endpoints[:10]`.) -/
def specTopTenByCount (rows : List JVal) : List JVal :=
  (sortLe (fun a b => decide (jcount b ≤ jcount a)) rows).take 10

/-- An endpoint-stat row with the given name and count. -/
def mkEndpointRow (name : String) (count : ℤ) : JVal :=
  .obj [("endpoint", .str name), ("count", .int count), ("success_rate", .int 99)]

/-- Eleven endpoint-stat rows in ASCENDING count order: the highest-count
entry sits last, where `endpoints[:10]` cannot reach it. -/
def rows11 : List JVal :=
  [ mkEndpointRow "/e1" 1, mkEndpointRow "/e2" 2, mkEndpointRow "/e3" 3
  , mkEndpointRow "/e4" 4, mkEndpointRow "/e5" 5, mkEndpointRow "/e6" 6
  , mkEndpointRow "/e7" 7, mkEndpointRow "/e8" 8, mkEndpointRow "/e9" 9
  , mkEndpointRow "/e10" 10, mkEndpointRow "/e11" 11 ]

/-- External state whose endpoints dataset is `rows11` (all other analytics
requests return empty data). -/
def inpTop : Inputs :=
  ⟨true, none, false, .response 200 (.parsed (.obj [])),
    fun endpoint =>
      if endpoint = "endpoints" then
        .response 200 (.parsed (.obj [("data", .arr rows11)]))
      else .response 200 (.parsed (.obj [("data", .obj [])]))⟩

/-- One hourly-stat row. -/
def rowHour : JVal :=
  .obj [("hour", .str "00:00"), ("count", .int 1),
    ("success_count", .int 1), ("error_count", .int 0)]

/-- One daily-stat row. -/
def rowDay : JVal :=
  .obj [("date", .str "2025-01-01"), ("successful_calls", .int 1),
    ("failed_calls", .int 0)]

/-- External state in which every dataset is present and non-empty EXCEPT the
errors dataset, whose fetch fails at the connection level. -/
def inpErrAbsent : Inputs :=
  ⟨true, none, false, .response 200 (.parsed (.obj [])),
    fun endpoint =>
      if endpoint = "summary" then
        .response 200 (.parsed (.obj [("data",
          .obj [("total_api_calls", .int 1500),
                ("category_breakdown", .obj [("ai_chat", .int 3)])])]))
      else if endpoint = "endpoints" then
        .response 200 (.parsed (.obj [("data", .arr [mkEndpointRow "/e1" 5])]))
      else if endpoint = "hourly" then
        .response 200 (.parsed (.obj [("data", .arr [rowHour])]))
      else if endpoint = "daily" then
        .response 200 (.parsed (.obj [("data", .arr [rowDay])]))
      else .connectionError⟩

/-- External state whose summary response is HTTP 200 with a JSON body that
lacks the `"data"` key. -/
def inpNoData : Inputs :=
  ⟨true, none, false, .response 200 (.parsed (.obj [])),
    fun endpoint =>
      if endpoint = "summary" then
        .response 200 (.parsed (.obj [("status", .str "ok")]))
      else .connectionError⟩

/-! ### Basic facts about `fetch_data` -/

/-- A `fetch_data` call either returns a value having emitted only the HTTP
request, or returns `None` having emitted the request and one `st.error`
diagnostic. -/
theorem fetch_data_cases (baseUrl endpoint : String) (o : HttpOutcome) :
    (∃ v, (fetch_data baseUrl endpoint o).result = some v ∧
      (fetch_data baseUrl endpoint o).events = [.fetchCall endpoint]) ∨
    ((fetch_data baseUrl endpoint o).result = none ∧
      ∃ t, (fetch_data baseUrl endpoint o).events =
        [.fetchCall endpoint, .msg .error t]) := by
  cases o with
  | response status body =>
    by_cases h : status = 200
    · cases body with
      | parsed v =>
        cases v <;> simp [fetch_data, h]
      | malformed m => simp [fetch_data, h]
    · simp [fetch_data, h]
  | connectionError => simp [fetch_data]
  | timeout m => simp [fetch_data]
  | exception m => simp [fetch_data]

/-- The events of one `fetch_data` call name exactly one HTTP request. -/
theorem fetchTrace_fetch_data (baseUrl endpoint : String) (o : HttpOutcome) :
    fetchTrace (fetch_data baseUrl endpoint o).events = [endpoint] := by
  rcases fetch_data_cases baseUrl endpoint o with ⟨v, _, he⟩ | ⟨_, t, he⟩ <;>
    simp [he, fetchTrace]

/-- A `fetch_data` call emits no warnings, no metrics and no charts. -/
theorem fetch_data_events_plain (baseUrl endpoint : String) (o : HttpOutcome) :
    (fetch_data baseUrl endpoint o).events.countP (isMsgKind .warning) = 0 ∧
    (fetch_data baseUrl endpoint o).events.countP (isMsgKind .info) = 0 ∧
    (fetch_data baseUrl endpoint o).events.countP isMetric = 0 ∧
    (fetch_data baseUrl endpoint o).events.countP isChartOrTable = 0 := by
  rcases fetch_data_cases baseUrl endpoint o with ⟨v, _, he⟩ | ⟨_, t, he⟩ <;>
    simp [he, isMsgKind, isMetric, isChartOrTable]

/-- The sidebar health display is always a message, and never a warning. -/
theorem healthMsg_is_msg (o : HttpOutcome) :
    ∃ k t, healthMsg o = Event.msg k t ∧ k ≠ MsgKind.warning := by
  cases o with
  | response s b =>
    rw [healthMsg]
    split
    · exact ⟨.success, "Backend Online", rfl, by decide⟩
    · exact ⟨.error, "Backend Error", rfl, by decide⟩
  | connectionError => exact ⟨.error, "Backend Offline", rfl, by decide⟩
  | timeout m => exact ⟨.error, "Backend Offline", rfl, by decide⟩
  | exception m => exact ⟨.error, "Backend Offline", rfl, by decide⟩

/-- The sidebar issues no `fetch_data` call and renders no warning and no
metric. -/
theorem sidebar_plain (cfg : Config) (inp : Inputs) :
    fetchTrace (sidebar cfg inp) = [] ∧
    (sidebar cfg inp).countP (isMsgKind .warning) = 0 ∧
    (sidebar cfg inp).countP isMetric = 0 := by
  obtain ⟨k, t, he, hk⟩ := healthMsg_is_msg inp.healthOutcome
  refine ⟨?_, ?_, ?_⟩ <;>
    simp [sidebar, he, hk, fetchTrace, isMsgKind, isMetric, List.countP_cons]

/-- A run whose summary fetch fails renders the header and sidebar, the fetch
diagnostics, one warning and one pointer message, and halts. -/
theorem main_none_eq (cfg : Config) (inp : Inputs)
    (hclick : inp.refreshClicked = false)
    (hnone : summaryResult cfg inp = none) :
    main cfg inp =
      ((.markdown "Cynchrony Analytics Dashboard" :: sidebar cfg inp)
        ++ (fetch_data cfg.backendUrl "summary" (inp.outcomes "summary")).events
        ++ [ .msg .warning
              "Unable to fetch analytics data. Please check the backend connection."
           , .msg .info ("Trying to connect to: " ++ cfg.backendUrl) ],
       .halt) := by
  unfold summaryResult at hnone
  simp only [main, hclick, Bool.false_eq_true, if_false, hnone]

/-- A run whose summary fetch succeeds renders all panels, in source order,
and ends according to the auto-refresh checkbox. -/
theorem main_some_eq (cfg : Config) (inp : Inputs) (s : JVal)
    (hclick : inp.refreshClicked = false)
    (hsum : summaryResult cfg inp = some s) :
    main cfg inp =
      ((.markdown "Cynchrony Analytics Dashboard" :: sidebar cfg inp)
        ++ (fetch_data cfg.backendUrl "summary" (inp.outcomes "summary")).events
        ++ overviewSection s ++ processingSection s ++ categorySection s
        ++ endpointsSection cfg inp ++ [.markdown "---"]
        ++ hourlySection cfg inp ++ [.markdown "---"]
        ++ businessSection s ++ [.markdown "---"]
        ++ errorsSection cfg inp ++ [.markdown "---"]
        ++ dailySection cfg inp ++ footerSection cfg,
       if inp.autoRefresh then
         .sleepThenRerun (sliderValue 10 120 cfg.refreshInterval inp.intervalChoice)
       else .halt) := by
  unfold summaryResult at hsum
  simp only [main, hclick, Bool.false_eq_true, if_false, hsum]
  split <;> rfl

/-- The top-endpoints panel issues exactly the `endpoints` fetch and renders
no warning and no metric. -/
theorem endpointsSection_shape (cfg : Config) (inp : Inputs) :
    fetchTrace (endpointsSection cfg inp) = ["endpoints"] ∧
    (endpointsSection cfg inp).countP (isMsgKind .warning) = 0 ∧
    (endpointsSection cfg inp).countP isMetric = 0 := by
  rcases fetch_data_cases cfg.backendUrl "endpoints" (inp.outcomes "endpoints")
    with ⟨v, hr, he⟩ | ⟨hr, t, he⟩
  · by_cases ht : v.truthy <;> by_cases hne : (v.elems.take 10).isEmpty <;>
      simp [endpointsSection, hr, he, ht, hne, fetchTrace, isMsgKind, isMetric]
  · simp [endpointsSection, hr, he, fetchTrace, isMsgKind, isMetric]

/-- The hourly panel issues exactly the `hourly` fetch and renders no warning
and no metric. -/
theorem hourlySection_shape (cfg : Config) (inp : Inputs) :
    fetchTrace (hourlySection cfg inp) = ["hourly"] ∧
    (hourlySection cfg inp).countP (isMsgKind .warning) = 0 ∧
    (hourlySection cfg inp).countP isMetric = 0 := by
  rcases fetch_data_cases cfg.backendUrl "hourly" (inp.outcomes "hourly")
    with ⟨v, hr, he⟩ | ⟨hr, t, he⟩
  · by_cases ht : v.truthy <;> by_cases hne : v.elems.isEmpty <;>
      simp [hourlySection, hr, he, ht, hne, fetchTrace, isMsgKind, isMetric]
  · simp [hourlySection, hr, he, fetchTrace, isMsgKind, isMetric]

/-- The recent-errors panel issues exactly the `errors` fetch and renders no
warning and no metric. -/
theorem errorsSection_shape (cfg : Config) (inp : Inputs) :
    fetchTrace (errorsSection cfg inp) = ["errors"] ∧
    (errorsSection cfg inp).countP (isMsgKind .warning) = 0 ∧
    (errorsSection cfg inp).countP isMetric = 0 := by
  rcases fetch_data_cases cfg.backendUrl "errors" (inp.outcomes "errors")
    with ⟨v, hr, he⟩ | ⟨hr, t, he⟩
  · by_cases ht : v.truthy <;> by_cases hne : (v.elems.take 20).isEmpty <;>
      simp [errorsSection, hr, he, ht, hne, fetchTrace, isMsgKind, isMetric]
  · simp [errorsSection, hr, he, fetchTrace, isMsgKind, isMetric]

/-- The daily panel issues exactly the `daily` fetch and renders no warning
and no metric. -/
theorem dailySection_shape (cfg : Config) (inp : Inputs) :
    fetchTrace (dailySection cfg inp) = ["daily"] ∧
    (dailySection cfg inp).countP (isMsgKind .warning) = 0 ∧
    (dailySection cfg inp).countP isMetric = 0 := by
  rcases fetch_data_cases cfg.backendUrl "daily" (inp.outcomes "daily")
    with ⟨v, hr, he⟩ | ⟨hr, t, he⟩
  · by_cases ht : v.truthy <;> by_cases hne : v.elems.isEmpty <;>
      simp [dailySection, hr, he, ht, hne, fetchTrace, isMsgKind, isMetric]
  · simp [dailySection, hr, he, fetchTrace, isMsgKind, isMetric]

/-- The category panel issues no fetch and renders no warning and no metric. -/
theorem categorySection_shape (s : JVal) :
    fetchTrace (categorySection s) = [] ∧
    (categorySection s).countP (isMsgKind .warning) = 0 ∧
    (categorySection s).countP isMetric = 0 := by
  by_cases ht : (jgetD s "category_breakdown" (.obj [])).truthy
  · cases hcd : jgetD s "category_breakdown" (.obj []) <;>
      rw [hcd] at ht <;>
      simp [categorySection, hcd, ht, fetchTrace, isMsgKind, isMetric]
  · simp [categorySection, ht, fetchTrace, isMsgKind, isMetric]

/-- The summary-bound metric rows and the footer issue no fetch and render no
warning; the metric rows render 5, 6 and 5 metrics. -/
theorem metricSections_shape (cfg : Config) (s : JVal) :
    (fetchTrace (overviewSection s) = [] ∧
      (overviewSection s).countP (isMsgKind .warning) = 0 ∧
      (overviewSection s).countP isMetric = 5) ∧
    (fetchTrace (processingSection s) = [] ∧
      (processingSection s).countP (isMsgKind .warning) = 0 ∧
      (processingSection s).countP isMetric = 6) ∧
    (fetchTrace (businessSection s) = [] ∧
      (businessSection s).countP (isMsgKind .warning) = 0 ∧
      (businessSection s).countP isMetric = 5) ∧
    (fetchTrace (footerSection cfg) = [] ∧
      (footerSection cfg).countP (isMsgKind .warning) = 0 ∧
      (footerSection cfg).countP isMetric = 0) := by
  refine ⟨⟨?_, ?_, ?_⟩, ⟨?_, ?_, ?_⟩, ⟨?_, ?_, ?_⟩, ⟨?_, ?_, ?_⟩⟩ <;>
    simp [overviewSection, processingSection, businessSection, footerSection,
      fetchTrace, isMsgKind, isMetric, List.countP_cons]

/-- C2: in a render cycle whose summary fetch returns absent (and that was
not cut short by the manual refresh button), exactly one warning is rendered,
no metric panel is rendered, and the run ends with `halt`: no auto-refresh
sleep and no rerun is scheduled — only an external manual trigger can start a
new cycle. -/
theorem summary_absent_single_warning (cfg : Config) (inp : Inputs)
    (hclick : inp.refreshClicked = false)
    (habsent : summaryResult cfg inp = none) :
    (main cfg inp).1.countP (isMsgKind .warning) = 1 ∧
    (main cfg inp).1.countP isMetric = 0 ∧
    (main cfg inp).2 = .halt := by
  rw [main_none_eq cfg inp hclick habsent]
  have hfe := fetch_data_events_plain cfg.backendUrl "summary" (inp.outcomes "summary")
  obtain ⟨hs1, hs2, hs3⟩ := sidebar_plain cfg inp
  refine ⟨?_, ?_, rfl⟩
  · simp [List.countP_append, List.countP_cons, hfe.1, hs2, isMsgKind, isMetric]
  · simp [List.countP_append, List.countP_cons, hfe.2.2.1, hs3, isMsgKind, isMetric]

/-- Witness for C2, at a run whose every request is refused. -/
theorem summary_absent_single_warning_witness :
    (inpAllDown.refreshClicked = false ∧ summaryResult cfgDemo inpAllDown = none) ∧
    ((main cfgDemo inpAllDown).1.countP (isMsgKind .warning) = 1 ∧
      (main cfgDemo inpAllDown).1.countP isMetric = 0 ∧
      (main cfgDemo inpAllDown).2 = .halt) :=
  ⟨⟨rfl, rfl⟩, summary_absent_single_warning cfgDemo inpAllDown rfl rfl⟩

/-- Prepending a markdown event does not change the fetch trace. -/
theorem fetchTrace_cons_markdown (t : String) (l : List Event) :
    fetchTrace (.markdown t :: l) = fetchTrace l := rfl

/-- A lone markdown event fetches nothing. -/
theorem fetchTrace_single_markdown (t : String) :
    fetchTrace [Event.markdown t] = [] := rfl

/-- C8: every render cycle that passes the summary check issues exactly five
fetch calls — summary, endpoints, hourly, errors, daily, in that order.  Each
is a separate `fetch_data` invocation on its own endpoint name; no result is
shared between the sections (each panel function consumes only its own
fetch), and a cycle holds no state that a later cycle could reuse. -/
theorem five_fetches_in_order (cfg : Config) (inp : Inputs) (s : JVal)
    (hclick : inp.refreshClicked = false)
    (hsum : summaryResult cfg inp = some s) :
    fetchTrace (main cfg inp).1 =
      ["summary", "endpoints", "hourly", "errors", "daily"] := by
  have hd := congrArg Prod.fst (main_some_eq cfg inp s hclick hsum)
  have happ : ∀ a b : List Event,
      fetchTrace (a ++ b) = fetchTrace a ++ fetchTrace b :=
    fun a b => List.filterMap_append a b _
  rw [hd]
  simp only [happ, fetchTrace_cons_markdown, fetchTrace_single_markdown,
    (sidebar_plain cfg inp).1, fetchTrace_fetch_data,
    (metricSections_shape cfg s).1.1, (metricSections_shape cfg s).2.1.1,
    (metricSections_shape cfg s).2.2.1.1, (metricSections_shape cfg s).2.2.2.1,
    (categorySection_shape s).1,
    (endpointsSection_shape cfg inp).1, (hourlySection_shape cfg inp).1,
    (errorsSection_shape cfg inp).1, (dailySection_shape cfg inp).1]
  rfl

/-- Witness for C8, at a run whose every request succeeds. -/
theorem five_fetches_in_order_witness :
    (inpOk.refreshClicked = false ∧ summaryResult cfgDemo inpOk = some (.obj [])) ∧
    fetchTrace (main cfgDemo inpOk).1 =
      ["summary", "endpoints", "hourly", "errors", "daily"] :=
  ⟨⟨rfl, rfl⟩, five_fetches_in_order cfgDemo inpOk (.obj []) rfl rfl⟩

/-- C9: an HTTP 200 response whose JSON body lacks the `"data"` key makes
`fetch_data` return the empty dict `{}`, not `None`; a summary fetched that
way does not trigger the warning short-circuit, and the full dashboard
renders (16 metric panels, no warning) with every summary metric at its
default. -/
theorem missing_data_key_renders_defaults (cfg : Config) (inp : Inputs)
    (fields : List (String × JVal))
    (hclick : inp.refreshClicked = false)
    (hout : inp.outcomes "summary" = .response 200 (.parsed (.obj fields)))
    (hnodata : jlookup fields "data" = none) :
    (∀ baseUrl endpoint,
      fetch_data baseUrl endpoint (.response 200 (.parsed (.obj fields))) =
        ⟨some (.obj []), [.fetchCall endpoint]⟩) ∧
    summaryResult cfg inp = some (.obj []) ∧
    (main cfg inp).1.countP (isMsgKind .warning) = 0 ∧
    (main cfg inp).1.countP isMetric = 16 ∧
    Event.metric "Total API Calls" "0" ∈ (main cfg inp).1 ∧
    Event.metric "Success Rate" "100.0%" ∈ (main cfg inp).1 := by
  have hfetch : ∀ baseUrl endpoint,
      fetch_data baseUrl endpoint (.response 200 (.parsed (.obj fields))) =
        ⟨some (.obj []), [.fetchCall endpoint]⟩ := by
    intro b e
    simp [fetch_data, hnodata]
  have hsum : summaryResult cfg inp = some (.obj []) := by
    rw [summaryResult, hout, hfetch]
  have hd := congrArg Prod.fst (main_some_eq cfg inp (.obj []) hclick hsum)
  have hms := metricSections_shape cfg (JVal.obj [])
  have f0 : format_number 0 = "0" := by decide
  have hp : fmtPct 100 = "100.0%" := by decide
  refine ⟨hfetch, hsum, ?_, ?_, ?_, ?_⟩
  · rw [hd, hout, hfetch]
    simp [List.countP_append, List.countP_cons,
      (sidebar_plain cfg inp).2.1, hms.1.2.1, hms.2.1.2.1, hms.2.2.1.2.1,
      hms.2.2.2.2.1, (categorySection_shape (JVal.obj [])).2.1,
      (endpointsSection_shape cfg inp).2.1, (hourlySection_shape cfg inp).2.1,
      (errorsSection_shape cfg inp).2.1, (dailySection_shape cfg inp).2.1,
      isMsgKind]
  · rw [hd, hout, hfetch]
    simp [List.countP_append, List.countP_cons,
      (sidebar_plain cfg inp).2.2, hms.1.2.2, hms.2.1.2.2, hms.2.2.1.2.2,
      hms.2.2.2.2.2, (categorySection_shape (JVal.obj [])).2.2,
      (endpointsSection_shape cfg inp).2.2, (hourlySection_shape cfg inp).2.2,
      (errorsSection_shape cfg inp).2.2, (dailySection_shape cfg inp).2.2,
      isMetric]
  · rw [hd]
    simp [List.mem_append, overviewSection, jgetInt, jgetD, jlookup, f0]
  · rw [hd]
    simp [List.mem_append, overviewSection, jgetNum, jlookup, hp]

/-- Witness for C9, at a 200 response carrying `{"status": "ok"}`. -/
theorem missing_data_key_renders_defaults_witness :
    (inpNoData.refreshClicked = false ∧
      inpNoData.outcomes "summary" =
        .response 200 (.parsed (.obj [("status", .str "ok")])) ∧
      jlookup [("status", JVal.str "ok")] "data" = none) ∧
    (summaryResult cfgDemo inpNoData = some (.obj []) ∧
      (main cfgDemo inpNoData).1.countP (isMsgKind .warning) = 0 ∧
      (main cfgDemo inpNoData).1.countP isMetric = 16) :=
  ⟨⟨rfl, rfl, rfl⟩,
    ⟨(missing_data_key_renders_defaults cfgDemo inpNoData
        [("status", .str "ok")] rfl rfl rfl).2.1,
     (missing_data_key_renders_defaults cfgDemo inpNoData
        [("status", .str "ok")] rfl rfl rfl).2.2.1,
     (missing_data_key_renders_defaults cfgDemo inpNoData
        [("status", .str "ok")] rfl rfl rfl).2.2.2.1⟩⟩

/-- C10: a summary mapping without `"success_rate"` renders the Success Rate
metric from the default 100, displayed `"100.0%"`, while every other summary
counter missing from the mapping renders from the default 0. -/
theorem success_rate_default_spec (fields : List (String × JVal))
    (hs : jlookup fields "success_rate" = none) :
    Event.metric "Success Rate" "100.0%" ∈ overviewSection (.obj fields) ∧
    (∀ p ∈ counterMetrics, jlookup fields p.1 = none →
      Event.metric p.2 "0" ∈ summaryMetricSections (.obj fields)) := by
  have hp : fmtPct 100 = "100.0%" := by decide
  have f0 : format_number 0 = "0" := by decide
  constructor
  · simp [overviewSection, jgetNum, hs, hp]
  · intro p hmem h
    fin_cases hmem <;>
      simp [summaryMetricSections, overviewSection, processingSection,
        businessSection, jgetInt, jgetD, h, f0]

/-- Witness for C10, at the empty summary mapping. -/
theorem success_rate_default_spec_witness :
    jlookup [] "success_rate" = none ∧
    (Event.metric "Success Rate" "100.0%" ∈ overviewSection (.obj []) ∧
      (∀ p ∈ counterMetrics, jlookup [] p.1 = none →
        Event.metric p.2 "0" ∈ summaryMetricSections (.obj []))) :=
  ⟨rfl, success_rate_default_spec [] rfl⟩

/-- C6: after a completed full render, with auto-refresh enabled the run ends
by blocking for the slider interval (operator-adjustable within 10-120,
defaulting to the startup configuration value) and then rerunning the whole
script — the next cycle is the same function of the same configuration and
widget state, so it repeats from the first fetch with identical parameters;
with auto-refresh disabled the run simply ends, and only a run in which the
manual `Refresh Now` button was clicked reruns without a timer. -/
theorem auto_refresh_cycle (cfg : Config) (inp : Inputs) (s : JVal) (n : ℕ)
    (hclick : inp.refreshClicked = false)
    (hsum : summaryResult cfg inp = some s) :
    (inp.autoRefresh = true →
      (main cfg inp).2 =
        .sleepThenRerun (sliderValue 10 120 cfg.refreshInterval inp.intervalChoice) ∧
      (∀ c, inp.intervalChoice = some c →
        10 ≤ sliderValue 10 120 cfg.refreshInterval inp.intervalChoice ∧
        sliderValue 10 120 cfg.refreshInterval inp.intervalChoice ≤ 120) ∧
      (inp.intervalChoice = none →
        sliderValue 10 120 cfg.refreshInterval inp.intervalChoice =
          cfg.refreshInterval) ∧
      host cfg inp (n + 1) =
        .ranScript (main cfg inp).1 ::
          .slept (sliderValue 10 120 cfg.refreshInterval inp.intervalChoice) ::
          host cfg inp n) ∧
    (inp.autoRefresh = false →
      (main cfg inp).2 = .halt ∧
      host cfg inp (n + 1) = [.ranScript (main cfg inp).1]) ∧
    (∀ inp2 : Inputs, inp2.refreshClicked = true →
      (main cfg inp2).2 = .manualRerun) := by
  have h2 := congrArg Prod.snd (main_some_eq cfg inp s hclick hsum)
  refine ⟨fun ha => ?_, fun ha => ?_, fun inp2 h => ?_⟩
  · rw [ha] at h2
    simp only [if_true] at h2
    refine ⟨h2, ?_, ?_, ?_⟩
    · intro c hc
      rw [hc]
      simp only [sliderValue]
      omega
    · intro hnone
      rw [hnone]
      rfl
    · simp only [host, h2]
  · rw [ha] at h2
    simp only [Bool.false_eq_true, if_false] at h2
    exact ⟨h2, by simp only [host, h2]⟩
  · simp [main, h]

/-- Witness for C6, at a run whose every request succeeds and whose slider is
untouched (interval = the configured default 30). -/
theorem auto_refresh_cycle_witness :
    (inpOk.refreshClicked = false ∧ summaryResult cfgDemo inpOk = some (.obj []) ∧
      inpOk.autoRefresh = true) ∧
    ((main cfgDemo inpOk).2 = .sleepThenRerun 30 ∧
      host cfgDemo inpOk 2 =
        .ranScript (main cfgDemo inpOk).1 :: .slept 30 :: host cfgDemo inpOk 1) := by
  have h := (auto_refresh_cycle cfgDemo inpOk (.obj []) 1 rfl rfl).1 rfl
  exact ⟨⟨rfl, rfl, rfl⟩, h.1, h.2.2.2⟩

/-- Counterexample to C3 as stated: a cycle in which the errors dataset is
absent (its fetch is refused) while every other dataset is present and
non-empty.  The claim says the panel bound to the absent dataset renders an
informational placeholder; in fact the whole run renders NO informational
message at all — the errors panel renders the success-styled congratulatory
empty state instead — while the four other chart panels render normally. -/
theorem errors_placeholder_counterexample :
    absentOrEmpty (endpointResult cfgDemo inpErrAbsent "errors") ∧
    (main cfgDemo inpErrAbsent).1.countP (isMsgKind .info) = 0 ∧
    (errorsSection cfgDemo inpErrAbsent).countP (isMsgKind .success) = 1 ∧
    (errorsSection cfgDemo inpErrAbsent).countP isChartOrTable = 0 ∧
    (main cfgDemo inpErrAbsent).1.countP isChartOrTable = 4 :=
  ⟨Or.inl rfl, by decide, by decide, by decide, by decide⟩

/-- C3 corrected: with a present summary, each of the four independently
fetched panels fails gracefully and in isolation.  When its dataset is absent
or an empty list, the endpoints, hourly and daily panels render their
informational placeholder, while the errors panel renders its congratulatory
success-styled empty-state message (`st.success`, not `st.info` — the one
divergence from the claim as stated); no chart or table is drawn by that
panel.  When its dataset is a non-empty list, each panel draws its chart or
table.  Each panel's render is a function of its own fetch outcome alone, so
absence of one dataset never blocks or alters another panel's render. -/
theorem panels_fail_in_isolation (cfg : Config) (inp inp2 : Inputs) :
    (absentOrEmpty (endpointResult cfg inp "endpoints") →
      Event.msg .info "No endpoint data available yet." ∈ endpointsSection cfg inp ∧
      (endpointsSection cfg inp).countP isChartOrTable = 0) ∧
    (absentOrEmpty (endpointResult cfg inp "hourly") →
      Event.msg .info "No hourly data available yet." ∈ hourlySection cfg inp ∧
      (hourlySection cfg inp).countP isChartOrTable = 0) ∧
    (absentOrEmpty (endpointResult cfg inp "daily") →
      Event.msg .info "No daily data available yet." ∈ dailySection cfg inp ∧
      (dailySection cfg inp).countP isChartOrTable = 0) ∧
    (absentOrEmpty (endpointResult cfg inp "errors") →
      Event.msg .success "No errors recorded!" ∈ errorsSection cfg inp ∧
      (errorsSection cfg inp).countP isChartOrTable = 0) ∧
    (∀ xs, xs ≠ [] → endpointResult cfg inp "endpoints" = some (.arr xs) →
      Event.endpointsBar (xs.take 10) "success_rate" ∈ endpointsSection cfg inp) ∧
    (∀ xs, xs ≠ [] → endpointResult cfg inp "hourly" = some (.arr xs) →
      Event.hourlyLines xs ∈ hourlySection cfg inp) ∧
    (∀ xs, xs ≠ [] → endpointResult cfg inp "errors" = some (.arr xs) →
      Event.errorsTable (xs.take 20) ∈ errorsSection cfg inp) ∧
    (∀ xs, xs ≠ [] → endpointResult cfg inp "daily" = some (.arr xs) →
      Event.dailyBars (sortLe (fun a b => decide (jdate a ≤ jdate b)) xs) ∈
        dailySection cfg inp) ∧
    (inp.outcomes "endpoints" = inp2.outcomes "endpoints" →
      endpointsSection cfg inp = endpointsSection cfg inp2) ∧
    (inp.outcomes "hourly" = inp2.outcomes "hourly" →
      hourlySection cfg inp = hourlySection cfg inp2) ∧
    (inp.outcomes "errors" = inp2.outcomes "errors" →
      errorsSection cfg inp = errorsSection cfg inp2) ∧
    (inp.outcomes "daily" = inp2.outcomes "daily" →
      dailySection cfg inp = dailySection cfg inp2) := by
  refine ⟨?_, ?_, ?_, ?_, ?_, ?_, ?_, ?_, ?_, ?_, ?_, ?_⟩
  · intro habs
    have hplain := (fetch_data_events_plain cfg.backendUrl "endpoints"
      (inp.outcomes "endpoints")).2.2.2
    rcases habs with h | h <;> rw [endpointResult] at h <;> constructor <;>
      simp [endpointsSection, h, JVal.truthy, List.countP_append,
        List.countP_cons, isChartOrTable, hplain]
  · intro habs
    have hplain := (fetch_data_events_plain cfg.backendUrl "hourly"
      (inp.outcomes "hourly")).2.2.2
    rcases habs with h | h <;> rw [endpointResult] at h <;> constructor <;>
      simp [hourlySection, h, JVal.truthy, List.countP_append,
        List.countP_cons, isChartOrTable, hplain]
  · intro habs
    have hplain := (fetch_data_events_plain cfg.backendUrl "daily"
      (inp.outcomes "daily")).2.2.2
    rcases habs with h | h <;> rw [endpointResult] at h <;> constructor <;>
      simp [dailySection, h, JVal.truthy, List.countP_append,
        List.countP_cons, isChartOrTable, hplain]
  · intro habs
    have hplain := (fetch_data_events_plain cfg.backendUrl "errors"
      (inp.outcomes "errors")).2.2.2
    rcases habs with h | h <;> rw [endpointResult] at h <;> constructor <;>
      simp [errorsSection, h, JVal.truthy, List.countP_append,
        List.countP_cons, isChartOrTable, hplain]
  · intro xs hne h
    rw [endpointResult] at h
    cases xs with
    | nil => exact absurd rfl hne
    | cons a as => simp [endpointsSection, h, JVal.truthy, JVal.elems]
  · intro xs hne h
    rw [endpointResult] at h
    cases xs with
    | nil => exact absurd rfl hne
    | cons a as => simp [hourlySection, h, JVal.truthy, JVal.elems]
  · intro xs hne h
    rw [endpointResult] at h
    cases xs with
    | nil => exact absurd rfl hne
    | cons a as => simp [errorsSection, h, JVal.truthy, JVal.elems]
  · intro xs hne h
    rw [endpointResult] at h
    cases xs with
    | nil => exact absurd rfl hne
    | cons a as => simp [dailySection, h, JVal.truthy, JVal.elems]
  · intro h
    simp only [endpointsSection, h]
  · intro h
    simp only [hourlySection, h]
  · intro h
    simp only [errorsSection, h]
  · intro h
    simp only [dailySection, h]

/-- Witness for C3 (corrected), at a run whose endpoints fetch is refused. -/
theorem panels_fail_in_isolation_witness :
    absentOrEmpty (endpointResult cfgDemo inpAllDown "endpoints") ∧
    (Event.msg .info "No endpoint data available yet." ∈
        endpointsSection cfgDemo inpAllDown ∧
      (endpointsSection cfgDemo inpAllDown).countP isChartOrTable = 0) :=
  ⟨Or.inl rfl, (panels_fail_in_isolation cfgDemo inpAllDown inpAllDown).1 (Or.inl rfl)⟩

/-- Counterexample to C7 as stated: eleven endpoint rows whose counts ascend
1..11.  The chart draws `endpoints[:10]` — the first ten rows, with counts
1..10 — and leaves out the highest-count entry, whereas the top ten ranked by
call count (the claim's words, embedded as `specTopTenByCount`) have counts
11 down to 2. -/
theorem top_endpoints_not_top_ten :
    endpointResult cfgDemo inpTop "endpoints" = some (.arr rows11) ∧
    Event.endpointsBar (rows11.take 10) "success_rate" ∈
      endpointsSection cfgDemo inpTop ∧
    (rows11.take 10).map jcount = [1, 2, 3, 4, 5, 6, 7, 8, 9, 10] ∧
    (specTopTenByCount rows11).map jcount = [11, 10, 9, 8, 7, 6, 5, 4, 3, 2] ∧
    ¬ (rows11.take 10).map jcount = (specTopTenByCount rows11).map jcount := by
  refine ⟨rfl, ?_, by decide, by decide, by decide⟩
  exact List.Mem.tail _ (List.Mem.tail _ (List.Mem.head _))

/-- C7 corrected: for every non-empty endpoints dataset, the bar chart
displays exactly the FIRST ten entries of the dataset as supplied by the
backend (all entries when fewer than ten), colored by success rate; whenever
the backend supplies the dataset ranked by descending call count (as the
spec's data model says it does), that selection is a top-ten by count: every
charted entry's count is at least every uncharted entry's count. -/
theorem top_endpoints_first_ten (cfg : Config) (inp : Inputs) (xs : List JVal)
    (hne : xs ≠ [])
    (hres : endpointResult cfg inp "endpoints" = some (.arr xs)) :
    Event.endpointsBar (xs.take 10) "success_rate" ∈ endpointsSection cfg inp ∧
    (xs.length ≤ 10 → xs.take 10 = xs) ∧
    (List.Pairwise (fun a b => jcount b ≤ jcount a) xs →
      ∀ a ∈ xs.take 10, ∀ b ∈ xs.drop 10, jcount b ≤ jcount a) := by
  refine ⟨?_, fun h => List.take_of_length_le h, fun hp => ?_⟩
  · rw [endpointResult] at hres
    cases xs with
    | nil => exact absurd rfl hne
    | cons a as => simp [endpointsSection, hres, JVal.truthy, JVal.elems]
  · intro a ha b hb
    have hsplit : List.Pairwise (fun a b => jcount b ≤ jcount a)
        (xs.take 10 ++ xs.drop 10) := by
      rw [List.take_append_drop]
      exact hp
    exact (List.pairwise_append.mp hsplit).2.2 a ha b hb

/-- Witness for C7 (corrected), at the eleven ascending rows. -/
theorem top_endpoints_first_ten_witness :
    (rows11 ≠ [] ∧ endpointResult cfgDemo inpTop "endpoints" = some (.arr rows11)) ∧
    Event.endpointsBar (rows11.take 10) "success_rate" ∈
      endpointsSection cfgDemo inpTop :=
  ⟨⟨by simp [rows11], rfl⟩,
    (top_endpoints_first_ten cfgDemo inpTop rows11 (by simp [rows11]) rfl).1⟩

/-- C1: for every endpoint name, when the HTTP response status is non-200,
when the connection is refused, when the body is malformed JSON, or when the
request timeout is exceeded, `fetch_data` returns the absent result `None`
(it never raises: the embedding is a total function whose every failure branch
mirrors a `try`/`except` arm of the source), and every such failure path emits
a user-visible `st.error` diagnostic before returning. -/
theorem fetch_data_failure_absent_and_diagnostic
    (baseUrl endpoint : String) (o : HttpOutcome)
    (h : failingOutcome o = true) :
    (fetch_data baseUrl endpoint o).result = none ∧
    ∃ t, Event.msg .error t ∈ (fetch_data baseUrl endpoint o).events := by
  cases o with
  | response status body =>
    by_cases hs : status = 200
    · cases body with
      | parsed v =>
        exfalso
        simp [failingOutcome, hs] at h
      | malformed m =>
        refine ⟨by simp [fetch_data, hs], ?_⟩
        exact ⟨"Error fetching " ++ endpoint ++ ": " ++ m, by simp [fetch_data, hs]⟩
    · refine ⟨by simp [fetch_data, hs], ?_⟩
      exact ⟨"Error fetching " ++ endpoint ++ ": " ++ toString status,
        by simp [fetch_data, hs]⟩
  | connectionError =>
    refine ⟨rfl, ?_⟩
    exact ⟨"Cannot connect to backend at " ++ baseUrl ++
      ". Make sure the server is running.", by simp [fetch_data]⟩
  | timeout m =>
    exact ⟨rfl, ⟨"Error fetching " ++ endpoint ++ ": " ++ m, by simp [fetch_data]⟩⟩
  | exception m =>
    exact ⟨rfl, ⟨"Error fetching " ++ endpoint ++ ": " ++ m, by simp [fetch_data]⟩⟩

/-- Witness for C1, at an HTTP 500 response. -/
theorem fetch_data_failure_witness :
    failingOutcome (.response 500 (.parsed (.obj []))) = true ∧
    ((fetch_data "http://localhost:8000" "summary"
        (.response 500 (.parsed (.obj [])))).result = none ∧
      ∃ t, Event.msg .error t ∈
        (fetch_data "http://localhost:8000" "summary"
          (.response 500 (.parsed (.obj [])))).events) :=
  ⟨rfl, fetch_data_failure_absent_and_diagnostic "http://localhost:8000" "summary"
    (.response 500 (.parsed (.obj []))) rfl⟩

/-- C4: `format_number` uses the `"{n/1e6:.1f}M"` rendering exactly for
`n ≥ 1 000 000` (`pyDiv1f n 1000000` is the embedding of that format
expression), the `"{n/1e3:.1f}K"` rendering exactly for
`1 000 ≤ n < 1 000 000`, and `str(n)` otherwise; in particular
`format_number 1500000 = "1.5M"`, `format_number 2500 = "2.5K"` and
`format_number 42 = "42"`. -/
theorem format_number_spec (n : ℤ) :
    (1000000 ≤ n → format_number n = pyDiv1f n 1000000 (by decide) ++ "M") ∧
    (1000 ≤ n → n < 1000000 → format_number n = pyDiv1f n 1000 (by decide) ++ "K") ∧
    (n < 1000 → format_number n = toString n) ∧
    format_number 1500000 = "1.5M" ∧
    format_number 2500 = "2.5K" ∧
    format_number 42 = "42" := by
  refine ⟨fun h => ?_, fun h1 h2 => ?_, fun h => ?_, by decide, by decide, by decide⟩
  · simp [format_number, h]
  · rw [format_number, if_neg (by omega), if_pos h1]
  · rw [format_number, if_neg (by omega), if_neg (by omega)]

/-- Witness for C4, at 2500 (the K branch) and 42 (the literal branch). -/
theorem format_number_spec_witness :
    ((1000 : ℤ) ≤ 2500 ∧ (2500 : ℤ) < 1000000 ∧
      format_number 2500 = pyDiv1f 2500 1000 (by decide) ++ "K") ∧
    ((42 : ℤ) < 1000 ∧ format_number 42 = toString (42 : ℤ)) :=
  ⟨⟨by decide, by decide, (format_number_spec 2500).2.1 (by decide) (by decide)⟩,
    ⟨by decide, (format_number_spec 42).2.2.1 (by decide)⟩⟩

/-- C5: `get_success_rate_color` selects the high class exactly for rates
`≥ 95`, the medium class exactly for rates in `[80, 95)` and the low class
exactly for rates `< 80`; at the boundaries, 95 is high, 94.9 is medium, 80 is
medium and 79.9 is low. -/
theorem get_success_rate_color_spec (r : PyRat) :
    (get_success_rate_color r = "success-rate-high" ↔ (95 : PyRat) ≤ r) ∧
    (get_success_rate_color r = "success-rate-medium" ↔
      ((80 : PyRat) ≤ r ∧ r < (95 : PyRat))) ∧
    (get_success_rate_color r = "success-rate-low" ↔ r < (80 : PyRat)) ∧
    get_success_rate_color 95 = "success-rate-high" ∧
    get_success_rate_color ⟨949, 10, by decide⟩ = "success-rate-medium" ∧
    get_success_rate_color 80 = "success-rate-medium" ∧
    get_success_rate_color ⟨799, 10, by decide⟩ = "success-rate-low" := by
  have h95 : ((95 : PyRat) ≤ r) ↔ ((95 : ℤ) * r.den ≤ r.num) := by
    show ((95 : ℤ) * r.den ≤ r.num * 1) ↔ _
    rw [mul_one]
  have h95l : (r < (95 : PyRat)) ↔ (r.num < (95 : ℤ) * r.den) := by
    show (r.num * 1 < (95 : ℤ) * r.den) ↔ _
    rw [mul_one]
  have h80 : ((80 : PyRat) ≤ r) ↔ ((80 : ℤ) * r.den ≤ r.num) := by
    show ((80 : ℤ) * r.den ≤ r.num * 1) ↔ _
    rw [mul_one]
  have h80l : (r < (80 : PyRat)) ↔ (r.num < (80 : ℤ) * r.den) := by
    show (r.num * 1 < (80 : ℤ) * r.den) ↔ _
    rw [mul_one]
  refine ⟨?_, ?_, ?_, by decide, by decide, by decide, by decide⟩
  · rw [get_success_rate_color]
    split_ifs with h1 h2 <;> simp [h1]
  · rw [get_success_rate_color]
    split_ifs with h1 h2
    · have hnot : ¬ r < (95 : PyRat) := by
        rw [h95l]
        rw [h95] at h1
        omega
      simp [hnot]
    · have hlt : r < (95 : PyRat) := by
        rw [h95l]
        rw [h95] at h1
        omega
      simp [h2, hlt]
    · simp [h2]
  · rw [get_success_rate_color]
    split_ifs with h1 h2
    · have hnot : ¬ r < (80 : PyRat) := by
        rw [h80l]
        rw [h95] at h1
        have hd := r.den_pos
        omega
      simp [hnot]
    · have hnot : ¬ r < (80 : PyRat) := by
        rw [h80l]
        rw [h80] at h2
        omega
      simp [hnot]
    · have hlt : r < (80 : PyRat) := by
        rw [h80l]
        rw [h80] at h2
        omega
      simp [hlt]

/-- Witness for C5, applying the characterisation at rate 90. -/
theorem get_success_rate_color_witness :
    ((80 : PyRat) ≤ (90 : PyRat) ∧ (90 : PyRat) < (95 : PyRat)) ∧
    get_success_rate_color 90 = "success-rate-medium" :=
  ⟨⟨by decide, by decide⟩,
    (get_success_rate_color_spec 90).2.1.mpr ⟨by decide, by decide⟩⟩

end Cynchrony
